import Mathlib

/-!
# EventX Studio — seat-map booking model

A shallow embedding of the EventX Studio seat-inventory logic.

The client-side code under `src/client` (SeatGrid, DashboardV2, EventDetails)
is embedded directly from the source.  The server-side Seat Inventory Manager
(`claimSeats`, `releaseSeats`, `confirmSeats`, `getOccupancy`) has no
implementation in the repository snapshot — only its callers and display
consumers are present — so those operations are modelled from the
specification (each such definition is marked `Modelled from the spec:`).
-/

namespace EventX

/-- Event status, from `src/client/src/types` (`IEvent.status`):
one of `upcoming`, `active`, `closed`. -/
inductive EventStatus where
  | upcoming
  | active
  | closed
deriving DecidableEq, Repr

/-- The event data the seat-inventory operations consult: grid shape
(`seatMap.rows`, `seatMap.cols`), per-seat `price`, and `status`
(from `IEvent` in `src/client/src/types`). -/
structure EventInfo where
  rows : Nat
  cols : Nat
  price : Nat
  status : EventStatus
deriving DecidableEq, Repr

/-- One event's seat inventory: the `sold` and `reserved` string lists of
`IEvent.seatMap` (`src/client/src/types`). -/
structure Inventory where
  sold : List String
  reserved : List String
deriving DecidableEq, Repr

/-- Result of `getOccupancy`: `{rows, cols, sold, reserved}` (spec §6). -/
structure Occupancy where
  rows : Nat
  cols : Nat
  sold : List String
  reserved : List String
deriving DecidableEq, Repr

/-- Errors of `claimSeats` (spec §7): `InvalidSeat`, `SeatConflict`
carrying the contested coordinates, `EventNotBookable`. -/
inductive ClaimError where
  | invalidSeat
  | seatConflict (contested : List String)
  | eventNotBookable
deriving DecidableEq, Repr

/-- Error of `confirmSeats` (spec §7): `InvalidTransition`. -/
inductive ConfirmError where
  | invalidTransition
deriving DecidableEq, Repr

/-- Numeric value of a decimal digit character. -/
def digitVal (ch : Char) : Nat := ch.toNat - 48

/-- Parse a maximal nonempty run of leading decimal digits; return the
parsed number and the rest of the characters. -/
def parseNatChars (cs : List Char) : Option (Nat × List Char) :=
  let ds := cs.takeWhile Char.isDigit
  if ds.isEmpty then none
  else some (ds.foldl (fun a ch => a * 10 + digitVal ch) 0, cs.dropWhile Char.isDigit)

/-- Modelled from the spec: the coordinate encoding `R<row>C<col>` (spec §6).
Decodes a seat string into its `(row, col)` pair; `none` on a malformed
string.  The repository has no server-side decoder in the snapshot. -/
def decodeSeat (s : String) : Option (Nat × Nat) :=
  match s.data with
  | 'R' :: rest =>
    match parseNatChars rest with
    | some (r, 'C' :: rest2) =>
      match parseNatChars rest2 with
      | some (c, []) => some (r, c)
      | _ => none
    | _ => none
  | _ => none

/-- Modelled from the spec: a seat string is valid for an event when it
decodes and its coordinates satisfy `1 ≤ row ≤ rows` and `1 ≤ col ≤ cols`
(spec §3, §4.1). -/
def validSeatB (ev : EventInfo) (s : String) : Bool :=
  match decodeSeat s with
  | some (r, c) => decide (1 ≤ r) && decide (r ≤ ev.rows) && decide (1 ≤ c) && decide (c ≤ ev.cols)
  | none => false

/-- Boolean duplicate test on a request list. -/
def hasDup : List String → Bool
  | [] => false
  | s :: rest => rest.contains s || hasDup rest

/-- A seat is taken when it is in `sold` or in `reserved`. -/
def takenBy (inv : Inventory) (s : String) : Bool :=
  inv.sold.contains s || inv.reserved.contains s

/-- Modelled from the spec: `claimSeats` (spec §4.1), whose server-side
implementation is absent from the snapshot.  A claim on a `closed` event is
rejected outright with `EventNotBookable` (spec §7); an empty, duplicated,
out-of-bounds or malformed request fails fast with `InvalidSeat` before any
conflict check; if any requested coordinate is already taken the whole claim
fails with `SeatConflict` naming exactly the taken coordinates; otherwise all
requested coordinates move into `reserved` and the total price is
`count(requestedSeats) * event.price`. -/
def claimSeats (ev : EventInfo) (inv : Inventory) (req : List String) :
    Except ClaimError (Inventory × Nat) :=
  if ev.status = .closed then .error .eventNotBookable
  else if req.isEmpty then .error .invalidSeat
  else if !(req.all (validSeatB ev)) then .error .invalidSeat
  else if hasDup req then .error .invalidSeat
  else if (req.filter (takenBy inv)).isEmpty then
    .ok ({ inv with reserved := inv.reserved ++ req }, req.length * ev.price)
  else .error (.seatConflict (req.filter (takenBy inv)))

/-- Modelled from the spec: `releaseSeats` (spec §4.1) — moves the given
coordinates out of whichever set holds them back to available; releasing an
already-available coordinate is a no-op. -/
def releaseSeats (inv : Inventory) (seats : List String) : Inventory :=
  { sold := inv.sold.filter (fun s => !(seats.contains s)),
    reserved := inv.reserved.filter (fun s => !(seats.contains s)) }

/-- Modelled from the spec: `confirmSeats` (spec §4.1) — moves coordinates
from `reserved` to `sold`; fails with `InvalidTransition` if any coordinate
is not currently reserved. -/
def confirmSeats (inv : Inventory) (seats : List String) :
    Except ConfirmError Inventory :=
  if seats.all (fun s => inv.reserved.contains s) then
    .ok { sold := inv.sold ++ seats,
          reserved := inv.reserved.filter (fun s => !(seats.contains s)) }
  else .error .invalidTransition

/-- Modelled from the spec: `getOccupancy` (spec §4.1, §6) — pure read
returning `{rows, cols, sold, reserved}`. -/
def getOccupancy (ev : EventInfo) (inv : Inventory) : Occupancy :=
  ⟨ev.rows, ev.cols, inv.sold, inv.reserved⟩

instance {ε α : Type} [DecidableEq ε] [DecidableEq α] : DecidableEq (Except ε α) := fun a b =>
  match a, b with
  | .ok x, .ok y =>
    if h : x = y then .isTrue (by rw [h]) else .isFalse (by intro hc; cases hc; exact h rfl)
  | .error x, .error y =>
    if h : x = y then .isTrue (by rw [h]) else .isFalse (by intro hc; cases hc; exact h rfl)
  | .ok _, .error _ => .isFalse (by intro hc; cases hc)
  | .error _, .ok _ => .isFalse (by intro hc; cases hc)

/-- The spec's inventory invariant: `sold ∩ reserved = ∅` (spec §3, §8). -/
def disjointInv (inv : Inventory) : Prop :=
  ∀ s, s ∈ inv.sold → s ∉ inv.reserved

/-- The states of one event's inventory reachable from the initial empty
inventory (spec §3 lifecycle) through the three mutating operations. -/
inductive Reachable (ev : EventInfo) : Inventory → Prop where
  | init : Reachable ev ⟨[], []⟩
  | claim (inv inv' : Inventory) (req : List String) (p : Nat) :
      Reachable ev inv → claimSeats ev inv req = .ok (inv', p) → Reachable ev inv'
  | confirm (inv inv' : Inventory) (seats : List String) :
      Reachable ev inv → confirmSeats inv seats = .ok inv' → Reachable ev inv'
  | release (inv : Inventory) (seats : List String) :
      Reachable ev inv → Reachable ev (releaseSeats inv seats)

/-- From `src/client/src/components/StatCard.tsx` (SeatGrid, line 18):
each grid cell's identifier is built as `R` + row + `C` + col. -/
def seatGridId (r c : Nat) : String := "R" ++ toString r ++ "C" ++ toString c

/-- From `src/client/src/pages/admin/DashboardV2.tsx` (line 236): the seat-map
cell identifier is built as `R` + row + `C` + col. -/
def dashboardCellId (r c : Nat) : String := "R" ++ toString r ++ "C" ++ toString c

/-- From SeatGrid's nested loops (`for r = 1..rows`, `for c = 1..cols`,
1-based): the grid of seat identifiers, row by row. -/
def seatGridIds (rows cols : Nat) : List (List String) :=
  (List.range rows).map (fun ri => (List.range cols).map (fun ci => seatGridId (ri + 1) (ci + 1)))

/-- From DashboardV2's `SeatStatus` type: a derived per-seat status. -/
inductive SeatStatus where
  | empty
  | sold
  | reserved
deriving DecidableEq, Repr

/-- From `src/client/src/pages/admin/DashboardV2.tsx` (lines 237–243):
`status = 'empty'; if (sold.includes(id)) status = 'sold';
else if (reserved.includes(id)) status = 'reserved'`. -/
def dashboardSeatStatus (sold reserved : List String) (id : String) : SeatStatus :=
  if sold.contains id then .sold
  else if reserved.contains id then .reserved
  else .empty

/-- From `src/client/src/components/StatCard.tsx` (SeatGrid, line 23): the
cell class is `isSold ? purple : isReserved ? zinc-300 : isSel ? emerald :
zinc-200` where `isSold`/`isReserved`/`isSel` are `includes` tests. -/
def seatGridClass (sold reserved selected : List String) (id : String) : String :=
  if sold.contains id then "bg-purple-600"
  else if reserved.contains id then "bg-zinc-300"
  else if selected.contains id then "bg-emerald-400"
  else "bg-zinc-200"

/-- From SeatGrid (line 23): `disabled = isSold || isReserved`. -/
def seatGridDisabled (sold reserved : List String) (id : String) : Bool :=
  sold.contains id || reserved.contains id

/-- From `src/client/src/pages/user/EventDetails.tsx` (line 32): the
displayed total is `selected.length * event.price`. -/
def eventDetailsTotal (selected : List String) (price : Nat) : Nat :=
  selected.length * price

/-! ## Basic facts about the operations -/

lemma takenBy_eq_false_iff (inv : Inventory) (s : String) :
    takenBy inv s = false ↔ s ∉ inv.sold ∧ s ∉ inv.reserved := by
  simp [takenBy, not_or]

lemma takenBy_eq_true_iff (inv : Inventory) (s : String) :
    takenBy inv s = true ↔ s ∈ inv.sold ∨ s ∈ inv.reserved := by
  simp [takenBy]

/-- Inversion of a successful `claimSeats`: the event was bookable, the
request was valid, every requested seat was free, the new inventory appends
the request to `reserved`, and the price is `req.length * ev.price`. -/
lemma claimSeats_ok_dest {ev : EventInfo} {inv : Inventory} {req : List String}
    {inv' : Inventory} {p : Nat} (h : claimSeats ev inv req = .ok (inv', p)) :
    inv'.sold = inv.sold ∧ inv'.reserved = inv.reserved ++ req ∧
    (∀ s ∈ req, s ∉ inv.sold ∧ s ∉ inv.reserved) ∧
    p = req.length * ev.price ∧ ev.status ≠ .closed ∧ req ≠ [] ∧
    req.all (validSeatB ev) = true ∧ hasDup req = false := by
  unfold claimSeats at h
  split at h
  · exact absurd h (by simp)
  · split at h
    · exact absurd h (by simp)
    · split at h
      · exact absurd h (by simp)
      · split at h
        · exact absurd h (by simp)
        · split at h
          · rename_i hstat hne hval hdup hfree
            simp only [Except.ok.injEq, Prod.mk.injEq] at h
            obtain ⟨hinv, hp⟩ := h
            subst hinv; subst hp
            refine ⟨rfl, rfl, ?_, rfl, hstat, ?_, ?_, ?_⟩
            · intro s hs
              rw [← takenBy_eq_false_iff]
              have := List.filter_eq_nil_iff.mp (List.isEmpty_iff.mp hfree) s hs
              simpa using this
            · intro hcon; exact hne (by simp [hcon])
            · simpa using hval
            · simpa using hdup
          · exact absurd h (by simp)

/-- The operation `claimSeats` succeeds when the event is bookable, the
request is non-empty, valid, duplicate-free, and every requested seat is
free. -/
lemma claimSeats_ok_of {ev : EventInfo} {inv : Inventory} {req : List String}
    (hstat : ev.status ≠ .closed) (hne : req ≠ [])
    (hval : req.all (validSeatB ev) = true) (hdup : hasDup req = false)
    (hfree : req.filter (takenBy inv) = []) :
    claimSeats ev inv req =
      .ok ({ inv with reserved := inv.reserved ++ req }, req.length * ev.price) := by
  unfold claimSeats
  rw [if_neg hstat, if_neg (by simpa using hne), if_neg (by simp [hval]),
    if_neg (by simp [hdup]), if_pos (by simp [hfree])]

/-- The operation `claimSeats` fails with `SeatConflict` naming exactly the
taken seats when the request is otherwise valid but some requested seat is
taken. -/
lemma claimSeats_conflict_of {ev : EventInfo} {inv : Inventory} {req : List String}
    (hstat : ev.status ≠ .closed) (hne : req ≠ [])
    (hval : req.all (validSeatB ev) = true) (hdup : hasDup req = false)
    (hconf : req.filter (takenBy inv) ≠ []) :
    claimSeats ev inv req = .error (.seatConflict (req.filter (takenBy inv))) := by
  unfold claimSeats
  rw [if_neg hstat, if_neg (by simpa using hne), if_neg (by simp [hval]),
    if_neg (by simp [hdup]), if_neg (by simpa using hconf)]

lemma claim_preserves_disjoint {ev : EventInfo} {inv inv' : Inventory}
    {req : List String} {p : Nat} (h : claimSeats ev inv req = .ok (inv', p))
    (hd : disjointInv inv) : disjointInv inv' := by
  obtain ⟨hs, hr, hfree, -⟩ := claimSeats_ok_dest h
  intro s hsold hmem
  rw [hr] at hmem
  rw [hs] at hsold
  rcases List.mem_append.mp hmem with h1 | h2
  · exact hd s hsold h1
  · exact (hfree s h2).1 hsold

lemma confirm_preserves_disjoint {inv inv' : Inventory} {seats : List String}
    (h : confirmSeats inv seats = .ok inv') (hd : disjointInv inv) :
    disjointInv inv' := by
  unfold confirmSeats at h
  split at h
  · simp only [Except.ok.injEq] at h
    subst h
    intro s hsold hmem
    obtain ⟨hmem', hkeep⟩ := List.mem_filter.mp hmem
    rcases List.mem_append.mp hsold with h1 | h2
    · exact hd s h1 hmem'
    · simp at hkeep
      exact hkeep h2
  · exact absurd h (by simp)

lemma release_preserves_disjoint {inv : Inventory} {seats : List String}
    (hd : disjointInv inv) : disjointInv (releaseSeats inv seats) := by
  intro s hsold hmem
  obtain ⟨hsold', -⟩ := List.mem_filter.mp hsold
  obtain ⟨hmem', -⟩ := List.mem_filter.mp hmem
  exact hd s hsold' hmem'

/-- After a successful claim of `r1` from a state where all of `r2`'s seats
were free, the seats of `r2` that are taken are exactly those in `r1`. -/
lemma takenBy_after_claim {ev : EventInfo} {inv inv1 : Inventory}
    {r1 r2 : List String} {p1 : Nat}
    (hok : claimSeats ev inv r1 = .ok (inv1, p1))
    (hfree : ∀ s ∈ r2, takenBy inv s = false) :
    ∀ s ∈ r2, takenBy inv1 s = r1.contains s := by
  obtain ⟨hs, hr, -⟩ := claimSeats_ok_dest hok
  intro s hs2
  have hfree' := (takenBy_eq_false_iff inv s).mp (hfree s hs2)
  cases h1 : takenBy inv1 s <;> cases h2 : r1.contains s
  · rfl
  · exfalso
    rw [takenBy_eq_false_iff, hs, hr] at h1
    exact h1.2 (List.mem_append.mpr (Or.inr (by simpa using h2)))
  · exfalso
    rw [takenBy_eq_true_iff, hs, hr] at h1
    rcases h1 with h1 | h1
    · exact hfree'.1 h1
    · rcases List.mem_append.mp h1 with h1 | h1
      · exact hfree'.2 h1
      · simp [h1] at h2
  · rfl

/-- Serialization of one order of two overlapping claims: the first claim
succeeds, and the second then fails with `SeatConflict` naming exactly the
overlap. -/
lemma claim_then_overlap_conflicts {ev : EventInfo} {inv inv1 : Inventory}
    {r1 r2 : List String} {p1 : Nat}
    (hstat : ev.status ≠ .closed) (h2ne : r2 ≠ [])
    (hv2 : r2.all (validSeatB ev) = true) (hd2 : hasDup r2 = false)
    (hfree : ∀ s ∈ r2, takenBy inv s = false)
    (hok : claimSeats ev inv r1 = .ok (inv1, p1))
    (hoverlap : ∃ s, s ∈ r2 ∧ s ∈ r1) :
    claimSeats ev inv1 r2 = .error (.seatConflict (r2.filter (fun s => r1.contains s))) := by
  have hcong : r2.filter (takenBy inv1) = r2.filter (fun s => r1.contains s) :=
    List.filter_congr (takenBy_after_claim hok hfree)
  have hconf : r2.filter (takenBy inv1) ≠ [] := by
    rw [hcong]
    obtain ⟨s, hs2, hs1⟩ := hoverlap
    exact List.ne_nil_of_mem (List.mem_filter.mpr ⟨hs2, by simpa using hs1⟩)
  have h := claimSeats_conflict_of hstat h2ne hv2 hd2 hconf
  rw [hcong] at h
  exact h

/-! ## Claim theorems -/

/-- C1: for every event's seat inventory, at every reachable state, the sold
and reserved coordinate sets are disjoint — `sold ∩ reserved = ∅` is
preserved by `claimSeats`, `confirmSeats` and `releaseSeats`. -/
theorem reachable_sold_reserved_disjoint (ev : EventInfo) (inv : Inventory)
    (h : Reachable ev inv) : disjointInv inv := by
  induction h with
  | init => intro s hs; simp at hs
  | claim inv inv' req p hr hc ih => exact claim_preserves_disjoint hc ih
  | confirm inv inv' seats hr hc ih => exact confirm_preserves_disjoint hc ih
  | release inv seats hr ih => exact release_preserves_disjoint ih

/-- Witness for C1: the state reached by claiming `R1C1`, `R1C2` and then
confirming `R1C1` is reachable, and the theorem yields its disjointness. -/
theorem reachable_sold_reserved_disjoint_witness :
    disjointInv ⟨["R1C1"], ["R1C2"]⟩ :=
  reachable_sold_reserved_disjoint ⟨8, 12, 1000, .upcoming⟩ ⟨["R1C1"], ["R1C2"]⟩
    (Reachable.confirm ⟨[], ["R1C1", "R1C2"]⟩ ⟨["R1C1"], ["R1C2"]⟩ ["R1C1"]
      (Reachable.claim ⟨[], []⟩ ⟨[], ["R1C1", "R1C2"]⟩ ["R1C1", "R1C2"] 2000
        Reachable.init (by decide))
      (by decide))

/-- C2: `claimSeats` is all-or-nothing — if any requested coordinate is
already sold or reserved (and the request is otherwise well-formed), the
operation fails with `SeatConflict` listing exactly the already-taken
coordinates, and no success (hence no inventory mutation) is possible. -/
theorem claimSeats_conflict_atomic (ev : EventInfo) (inv : Inventory)
    (req : List String) (hstat : ev.status ≠ .closed) (hne : req ≠ [])
    (hval : req.all (validSeatB ev) = true) (hdup : hasDup req = false)
    (htaken : ∃ s ∈ req, s ∈ inv.sold ∨ s ∈ inv.reserved) :
    claimSeats ev inv req = .error (.seatConflict (req.filter (takenBy inv))) ∧
    (∀ s, s ∈ req.filter (takenBy inv) ↔ s ∈ req ∧ (s ∈ inv.sold ∨ s ∈ inv.reserved)) ∧
    (∀ inv' p, claimSeats ev inv req ≠ .ok (inv', p)) := by
  have hconf : req.filter (takenBy inv) ≠ [] := by
    obtain ⟨s, hs, hmem⟩ := htaken
    intro hnil
    have hns := List.filter_eq_nil_iff.mp hnil s hs
    rw [Bool.not_eq_true, takenBy_eq_false_iff] at hns
    tauto
  have h1 := claimSeats_conflict_of hstat hne hval hdup hconf
  refine ⟨h1, ?_, ?_⟩
  · intro s
    simp [List.mem_filter, takenBy]
  · intro inv' p hok
    rw [h1] at hok
    exact absurd hok (by simp)

/-- Witness for C2: with `R1C2` reserved, claiming `[R1C2, R1C3]` fails with
`SeatConflict` naming exactly `R1C2`. -/
theorem claimSeats_conflict_atomic_witness :
    claimSeats ⟨8, 12, 1000, .upcoming⟩ ⟨[], ["R1C2"]⟩ ["R1C2", "R1C3"] =
      .error (.seatConflict ["R1C2"]) := by
  have h := (claimSeats_conflict_atomic ⟨8, 12, 1000, .upcoming⟩ ⟨[], ["R1C2"]⟩
    ["R1C2", "R1C3"] (by decide) (by decide) (by decide) (by decide) (by decide)).1
  have hfil : (["R1C2", "R1C3"].filter (takenBy ⟨[], ["R1C2"]⟩)) = ["R1C2"] := by decide
  rw [hfil] at h
  exact h

/-- C3: two claims on the same event with overlapping requested coordinate
sets, serialized through the per-event atomic section (spec §5), never both
succeed: in either execution order the first succeeds and the second fails
with `SeatConflict` naming exactly the overlapping coordinates, and from no
state can both succeed in sequence. -/
theorem overlapping_claims_exactly_one (ev : EventInfo) (inv : Inventory)
    (r1 r2 : List String) (hstat : ev.status ≠ .closed)
    (h1ne : r1 ≠ []) (h2ne : r2 ≠ [])
    (hv1 : r1.all (validSeatB ev) = true) (hv2 : r2.all (validSeatB ev) = true)
    (hd1 : hasDup r1 = false) (hd2 : hasDup r2 = false)
    (hfr1 : ∀ s ∈ r1, takenBy inv s = false)
    (hfr2 : ∀ s ∈ r2, takenBy inv s = false)
    (hoverlap : ∃ s, s ∈ r1 ∧ s ∈ r2) :
    (∃ inv1 p1, claimSeats ev inv r1 = .ok (inv1, p1) ∧
      claimSeats ev inv1 r2 = .error (.seatConflict (r2.filter (fun s => r1.contains s)))) ∧
    (∃ inv2 p2, claimSeats ev inv r2 = .ok (inv2, p2) ∧
      claimSeats ev inv2 r1 = .error (.seatConflict (r1.filter (fun s => r2.contains s)))) ∧
    (∀ inv0 invA pA invB pB, claimSeats ev inv0 r1 = .ok (invA, pA) →
      claimSeats ev invA r2 = .ok (invB, pB) → False) := by
  have hfree1 : r1.filter (takenBy inv) = [] :=
    List.filter_eq_nil_iff.mpr (fun s hs => by simp [hfr1 s hs])
  have hfree2 : r2.filter (takenBy inv) = [] :=
    List.filter_eq_nil_iff.mpr (fun s hs => by simp [hfr2 s hs])
  have hok1 := claimSeats_ok_of hstat h1ne hv1 hd1 hfree1
  have hok2 := claimSeats_ok_of hstat h2ne hv2 hd2 hfree2
  refine ⟨?_, ?_, ?_⟩
  · exact ⟨_, _, hok1,
      claim_then_overlap_conflicts hstat h2ne hv2 hd2 hfr2 hok1 (by tauto)⟩
  · exact ⟨_, _, hok2,
      claim_then_overlap_conflicts hstat h1ne hv1 hd1 hfr1 hok2 (by tauto)⟩
  · intro inv0 invA pA invB pB hA hB
    obtain ⟨-, hrA, -⟩ := claimSeats_ok_dest hA
    obtain ⟨-, -, hfreeB, -⟩ := claimSeats_ok_dest hB
    obtain ⟨s, hs1, hs2⟩ := hoverlap
    exact (hfreeB s hs2).2 (hrA ▸ List.mem_append.mpr (Or.inr hs1))

/-- Witness for C3: claims `[R1C1, R1C2]` and `[R1C2, R1C3]` overlap on
`R1C2`; serialized either way, exactly one succeeds. -/
theorem overlapping_claims_exactly_one_witness :
    ∃ inv1 p1,
      claimSeats ⟨8, 12, 1000, .upcoming⟩ ⟨[], []⟩ ["R1C1", "R1C2"] = .ok (inv1, p1) ∧
      claimSeats ⟨8, 12, 1000, .upcoming⟩ inv1 ["R1C2", "R1C3"] =
        .error (.seatConflict (["R1C2", "R1C3"].filter
          (fun s => ["R1C1", "R1C2"].contains s))) :=
  (overlapping_claims_exactly_one ⟨8, 12, 1000, .upcoming⟩ ⟨[], []⟩
    ["R1C1", "R1C2"] ["R1C2", "R1C3"] (by decide) (by decide) (by decide)
    (by decide) (by decide) (by decide) (by decide) (by decide) (by decide)
    (by decide)).1

/-- C4: every successful `claimSeats` returns total price
`count(requestedSeats) * event.price`, agreeing with the client-side total
`selected.length * event.price` shown by EventDetails. -/
theorem claimSeats_total_price (ev : EventInfo) (inv : Inventory)
    (req : List String) (inv' : Inventory) (total : Nat)
    (h : claimSeats ev inv req = .ok (inv', total)) :
    total = req.length * ev.price ∧ total = eventDetailsTotal req ev.price := by
  obtain ⟨-, -, -, hp, -⟩ := claimSeats_ok_dest h
  exact ⟨hp, hp⟩

/-- Witness for C4: claiming two seats at price 1000 returns total 2000. -/
theorem claimSeats_total_price_witness :
    2000 = (["R1C1", "R1C2"] : List String).length * 1000 ∧
    2000 = eventDetailsTotal ["R1C1", "R1C2"] 1000 :=
  claimSeats_total_price ⟨8, 12, 1000, .upcoming⟩ ⟨[], []⟩ ["R1C1", "R1C2"]
    ⟨[], ["R1C1", "R1C2"]⟩ 2000 (by decide)

/-- C5: round-trip — after a successful `claimSeats`, `getOccupancy` reports
every claimed coordinate as reserved; after a subsequent `releaseSeats` of
those coordinates, `getOccupancy` reports each absent from both sets. -/
theorem claim_occupancy_roundtrip (ev : EventInfo) (inv : Inventory)
    (req : List String) (inv' : Inventory) (p : Nat)
    (h : claimSeats ev inv req = .ok (inv', p)) :
    (∀ s ∈ req, s ∈ (getOccupancy ev inv').reserved) ∧
    (∀ s ∈ req, s ∉ (getOccupancy ev (releaseSeats inv' req)).sold ∧
      s ∉ (getOccupancy ev (releaseSeats inv' req)).reserved) := by
  obtain ⟨hs, hr, -⟩ := claimSeats_ok_dest h
  constructor
  · intro s hsr
    show s ∈ inv'.reserved
    rw [hr]
    exact List.mem_append.mpr (Or.inr hsr)
  · intro s hsr
    constructor
    · show s ∉ (releaseSeats inv' req).sold
      intro hmem
      have := (List.mem_filter.mp hmem).2
      simp [hsr] at this
    · show s ∉ (releaseSeats inv' req).reserved
      intro hmem
      have := (List.mem_filter.mp hmem).2
      simp [hsr] at this

/-- Witness for C5: claiming `[R1C1, R1C2]` from the empty inventory, the
occupancy shows both reserved; releasing them removes both from both sets. -/
theorem claim_occupancy_roundtrip_witness :
    (∀ s ∈ (["R1C1", "R1C2"] : List String),
      s ∈ (getOccupancy ⟨8, 12, 1000, .upcoming⟩ ⟨[], ["R1C1", "R1C2"]⟩).reserved) ∧
    (∀ s ∈ (["R1C1", "R1C2"] : List String),
      s ∉ (getOccupancy ⟨8, 12, 1000, .upcoming⟩
        (releaseSeats ⟨[], ["R1C1", "R1C2"]⟩ ["R1C1", "R1C2"])).sold ∧
      s ∉ (getOccupancy ⟨8, 12, 1000, .upcoming⟩
        (releaseSeats ⟨[], ["R1C1", "R1C2"]⟩ ["R1C1", "R1C2"])).reserved) :=
  claim_occupancy_roundtrip ⟨8, 12, 1000, .upcoming⟩ ⟨[], []⟩ ["R1C1", "R1C2"]
    ⟨[], ["R1C1", "R1C2"]⟩ 2000 (by decide)

/-- C6: `releaseSeats` is idempotent — releasing the same coordinates twice
equals releasing them once — and releasing an already-available coordinate is
a no-op rather than an error. -/
theorem releaseSeats_idempotent_noop (inv : Inventory) (seats : List String) :
    releaseSeats (releaseSeats inv seats) seats = releaseSeats inv seats ∧
    (∀ c, c ∉ inv.sold → c ∉ inv.reserved → releaseSeats inv [c] = inv) := by
  constructor
  · unfold releaseSeats
    simp [List.filter_filter]
  · intro c hcs hcr
    cases inv with
    | mk sold reserved =>
      unfold releaseSeats
      simp only [Inventory.mk.injEq]
      constructor
      · apply List.filter_eq_self.mpr
        intro a ha
        simp only [List.contains_cons, List.contains_nil, Bool.or_false,
          Bool.not_eq_eq_eq_not, Bool.not_true]
        simp only [beq_eq_false_iff_ne, ne_eq]
        intro hac
        exact hcs (hac ▸ ha)
      · apply List.filter_eq_self.mpr
        intro a ha
        simp only [List.contains_cons, List.contains_nil, Bool.or_false,
          Bool.not_eq_eq_eq_not, Bool.not_true]
        simp only [beq_eq_false_iff_ne, ne_eq]
        intro hac
        exact hcr (hac ▸ ha)

/-- Witness for C6: releasing `R1C1` twice from a state holding it equals
releasing it once, and releasing the absent `R5C5` is a no-op. -/
theorem releaseSeats_idempotent_noop_witness :
    (releaseSeats (releaseSeats ⟨["R1C1"], ["R1C2"]⟩ ["R1C1"]) ["R1C1"] =
      releaseSeats ⟨["R1C1"], ["R1C2"]⟩ ["R1C1"]) ∧
    releaseSeats ⟨["R1C1"], ["R1C2"]⟩ ["R5C5"] = ⟨["R1C1"], ["R1C2"]⟩ :=
  ⟨(releaseSeats_idempotent_noop ⟨["R1C1"], ["R1C2"]⟩ ["R1C1"]).1,
    (releaseSeats_idempotent_noop ⟨["R1C1"], ["R1C2"]⟩ ["R5C5"]).2 "R5C5"
      (by decide) (by decide)⟩

/-- C7: a claim containing an out-of-bounds or malformed coordinate never
fails with `SeatConflict` — it never reaches the conflict check — and when
the event is bookable it fails with `InvalidSeat`. -/
theorem invalid_seat_never_conflict (ev : EventInfo) (inv : Inventory)
    (req : List String) (hbad : ∃ s ∈ req, validSeatB ev s = false) :
    (∀ contested, claimSeats ev inv req ≠ .error (.seatConflict contested)) ∧
    (ev.status ≠ .closed → claimSeats ev inv req = .error .invalidSeat) := by
  have hne : req.isEmpty = false := by
    obtain ⟨s, hs, -⟩ := hbad
    cases req
    · simp at hs
    · rfl
  have hall : req.all (validSeatB ev) = false := by
    obtain ⟨s, hs, hv⟩ := hbad
    cases hcase : req.all (validSeatB ev)
    · rfl
    · exact absurd (List.all_eq_true.mp hcase s hs) (by simp [hv])
  constructor
  · intro contested hc
    unfold claimSeats at hc
    split at hc
    · exact absurd hc (by simp)
    · split at hc
      · exact absurd hc (by simp)
      · split at hc
        · exact absurd hc (by simp)
        · rename_i hval
          rw [hall] at hval
          simp at hval
  · intro hstat
    unfold claimSeats
    rw [if_neg hstat, if_neg (by simp [hne]), if_pos (by simp [hall])]

/-- Witness for C7: claiming `R0C1` (row 0 is out of bounds) on a bookable
8×12 event fails with `InvalidSeat`. -/
theorem invalid_seat_never_conflict_witness :
    claimSeats ⟨8, 12, 1000, .upcoming⟩ ⟨[], []⟩ ["R0C1"] =
      .error .invalidSeat :=
  (invalid_seat_never_conflict ⟨8, 12, 1000, .upcoming⟩ ⟨[], []⟩ ["R0C1"]
    (by decide)).2 (by decide)

/-- C8: a claim on a `closed` event is rejected outright with
`EventNotBookable` (so no inventory mutation is possible), and every
successful claim happens on an `upcoming` or `active` event. -/
theorem closed_event_rejected (ev : EventInfo) (inv : Inventory)
    (req : List String) (h : ev.status = .closed) :
    claimSeats ev inv req = .error .eventNotBookable ∧
    (∀ inv' p, claimSeats ev inv req ≠ .ok (inv', p)) ∧
    (∀ (ev2 : EventInfo) (inv2 inv2' : Inventory) (req2 : List String) (p2 : Nat),
      claimSeats ev2 inv2 req2 = .ok (inv2', p2) →
      ev2.status = .upcoming ∨ ev2.status = .active) := by
  have h1 : claimSeats ev inv req = .error .eventNotBookable := by
    unfold claimSeats
    rw [if_pos h]
  refine ⟨h1, ?_, ?_⟩
  · intro inv' p hok
    rw [h1] at hok
    exact absurd hok (by simp)
  · intro ev2 inv2 inv2' req2 p2 hok
    obtain ⟨-, -, -, -, hstat, -⟩ := claimSeats_ok_dest hok
    cases hs : ev2.status with
    | upcoming => exact Or.inl rfl
    | active => exact Or.inr rfl
    | closed => exact absurd hs hstat

/-- Witness for C8: any claim on a closed event is `EventNotBookable`. -/
theorem closed_event_rejected_witness :
    claimSeats ⟨8, 12, 1000, .closed⟩ ⟨[], []⟩ ["R1C1"] =
      .error .eventNotBookable :=
  (closed_event_rejected ⟨8, 12, 1000, .closed⟩ ⟨[], []⟩ ["R1C1"] (by decide)).1

/-- C9: seat identity is positional and uniformly encoded — for a grid of
`rows × cols`, the cell generated by SeatGrid at 1-based position `(r, c)`
is exactly the string `R<r>C<c>`, DashboardV2 builds the identical
identifier, and both agree with each other. -/
theorem seat_identity_positional (rows cols r c : Nat)
    (hr1 : 1 ≤ r) (hr2 : r ≤ rows) (hc1 : 1 ≤ c) (hc2 : c ≤ cols) :
    ((seatGridIds rows cols).getD (r - 1) []).getD (c - 1) "" =
      "R" ++ toString r ++ "C" ++ toString c ∧
    dashboardCellId r c = "R" ++ toString r ++ "C" ++ toString c ∧
    seatGridId r c = dashboardCellId r c := by
  refine ⟨?_, rfl, rfl⟩
  have hrow : (seatGridIds rows cols).getD (r - 1) [] =
      (List.range cols).map (fun ci => seatGridId r (ci + 1)) := by
    rw [List.getD_eq_getElem?_getD]
    unfold seatGridIds
    rw [List.getElem?_map, List.getElem?_range (by omega)]
    simp [Nat.sub_add_cancel hr1]
  rw [hrow, List.getD_eq_getElem?_getD, List.getElem?_map,
    List.getElem?_range (by omega)]
  simp [Nat.sub_add_cancel hc1, seatGridId]

/-- Witness for C9: at position (3, 12) of an 8×12 grid both generators
produce the string `R3C12`. -/
theorem seat_identity_positional_witness :
    ((seatGridIds 8 12).getD 2 []).getD 11 "" = "R" ++ toString 3 ++ "C" ++ toString 12 ∧
    dashboardCellId 3 12 = "R" ++ toString 3 ++ "C" ++ toString 12 ∧
    seatGridId 3 12 = dashboardCellId 3 12 :=
  seat_identity_positional 8 12 3 12 (by decide) (by decide) (by decide) (by decide)

/-- C10: when a seat id appears in both the sold and the reserved lists,
every consumer classifies it as sold: DashboardV2's status check tests sold
before reserved, and SeatGrid colors the cell as sold (and disables it). -/
theorem sold_checked_before_reserved (sold reserved selected : List String)
    (id : String) (hs : id ∈ sold) (hr : id ∈ reserved) :
    dashboardSeatStatus sold reserved id = .sold ∧
    seatGridClass sold reserved selected id = "bg-purple-600" ∧
    seatGridDisabled sold reserved id = true := by
  refine ⟨?_, ?_, ?_⟩ <;>
    simp [dashboardSeatStatus, seatGridClass, seatGridDisabled, hs, hr]

/-- Witness for C10: a seat listed both sold and reserved renders as sold. -/
theorem sold_checked_before_reserved_witness :
    dashboardSeatStatus ["R1C1"] ["R1C1"] "R1C1" = .sold ∧
    seatGridClass ["R1C1"] ["R1C1"] [] "R1C1" = "bg-purple-600" ∧
    seatGridDisabled ["R1C1"] ["R1C1"] "R1C1" = true :=
  sold_checked_before_reserved ["R1C1"] ["R1C1"] [] "R1C1" (by decide) (by decide)

end EventX
